import Mathlib

/-!
Shallow embedding of `src/vapix_python/OpticsControl.py`.

The module is a thin JSON-RPC client: every public operation of the
`OpticsControl` class builds a JSON request body, sends it through the
injected transport (`self.api._send_request_vanilla`) with path
`opticscontrol.cgi` and HTTP verb `POST`, and either returns the parsed
response or lets the transport's exception propagate.

Modelling choices:
* JSON values are the inductive `JVal`; Python dicts keep insertion
  order, so objects are association lists in source order.  Numbers are
  rationals: the client performs no arithmetic, every number is passed
  through verbatim, so the carrier of the numeric field is irrelevant.
* The optics id is `Union[str, int]` in Python, embedded as `OpticsId`;
  Python's `str()` coercion is `OpticsId.toPyStr` (`toString` on `Int`
  agrees with Python's decimal rendering, identity on strings).
* The transport is a function `SentRequest → Except ε JVal`; an
  exception of any Python type is an `ε` error value.  Each client
  method returns the list of requests it sent (its trace) together with
  its result; every method body in the source makes exactly one
  straight-line transport call, so its trace is a literal singleton.
* Methods annotated `-> None` discard the transport's return value and
  return `Unit` on success; exceptions propagate via `Except`.
-/

namespace VapixPython

/-- JSON values as built by the Python client (dicts keep insertion order). -/
inductive JVal where
  | jstr : String → JVal
  | jnum : ℚ → JVal
  | jbool : Bool → JVal
  | jarr : List JVal → JVal
  | jobj : List (String × JVal) → JVal

/-- Key lookup in a JSON object (first binding wins, as in a Python dict). -/
def JVal.lookup : JVal → String → Option JVal
  | .jobj kvs, k => List.lookup k kvs
  | _, _ => none

/-- The keys of a JSON object, in insertion order. -/
def JVal.keys : JVal → List String
  | .jobj kvs => kvs.map Prod.fst
  | _ => []

/-- The `Union[str, int]` optics identifier accepted by every operation. -/
inductive OpticsId where
  | ofInt (n : Int)
  | ofStr (s : String)
  deriving DecidableEq, Repr

/-- Python's `str()` coercion as applied to an optics id:
decimal rendering of an `int`, identity on a `str`. -/
def OpticsId.toPyStr : OpticsId → String
  | .ofInt n => toString n
  | .ofStr s => s

/-- One call to `self.api._send_request_vanilla(path, method=..., json_data=...)`. -/
structure SentRequest where
  path : String
  httpMethod : String
  json_data : JVal

/-- The injected transport collaborator: consumes a request and either
returns the parsed response body or raises (an error of any type `ε`). -/
def Transport (ε : Type) : Type := SentRequest → Except ε JVal

namespace OpticsControl

/-- `OpticsControl.RELATIVE_STEP`: the public mapping from shorthand
relative-step identifiers to the wire-protocol string values. -/
def RELATIVE_STEP : List (String × String) :=
  [("BIG_IN", "+bigStep"),
   ("SMALL_IN", "+smallStep"),
   ("BIG_OUT", "-bigStep"),
   ("SMALL_OUT", "-smallStep")]

/-- Request body built by `get_optics`. -/
def getOptics_body : JVal :=
  .jobj [("apiVersion", .jstr "1.2"),
         ("method", .jstr "getOptics")]

/-- Request body built by `get_capabilities`. -/
def getCapabilities_body : JVal :=
  .jobj [("apiVersion", .jstr "1.2"),
         ("method", .jstr "getCapabilities")]

/-- Request body built by `set_focus`. -/
def setFocus_body (optics_id : OpticsId) (position : ℚ) : JVal :=
  .jobj [("apiVersion", .jstr "1.2"),
         ("method", .jstr "setFocus"),
         ("params", .jobj [("optics", .jarr [
            .jobj [("opticsId", .jstr optics_id.toPyStr),
                   ("position", .jnum position)]])])]

/-- Request body built by `set_relative_focus`. -/
def setRelativeFocus_body (optics_id : OpticsId) (step : String) : JVal :=
  .jobj [("apiVersion", .jstr "1.2"),
         ("method", .jstr "setRelativeFocus"),
         ("params", .jobj [("optics", .jarr [
            .jobj [("opticsId", .jstr optics_id.toPyStr),
                   ("type", .jstr step)]])])]

/-- Request body built by `set_magnification`. -/
def setMagnification_body (optics_id : OpticsId) (magnification : ℚ) : JVal :=
  .jobj [("apiVersion", .jstr "1.2"),
         ("method", .jstr "setMagnification"),
         ("params", .jobj [("optics", .jarr [
            .jobj [("opticsId", .jstr optics_id.toPyStr),
                   ("magnification", .jnum magnification)]])])]

/-- Request body built by `set_relative_magnification`. -/
def setRelativeMagnification_body (optics_id : OpticsId) (step : String) : JVal :=
  .jobj [("apiVersion", .jstr "1.2"),
         ("method", .jstr "setRelativeMagnification"),
         ("params", .jobj [("optics", .jarr [
            .jobj [("opticsId", .jstr optics_id.toPyStr),
                   ("type", .jstr step)]])])]

/-- Request body built by `calibrate`. -/
def calibrate_body (optics_id : OpticsId) (zoom : Bool) (focus : Bool) : JVal :=
  .jobj [("apiVersion", .jstr "1.2"),
         ("method", .jstr "calibrate"),
         ("params", .jobj [("optics", .jarr [
            .jobj [("opticsId", .jstr optics_id.toPyStr),
                   ("zoom", .jbool zoom),
                   ("focus", .jbool focus)]])])]

/-- Request body built by `reset`. -/
def reset_body (optics_id : OpticsId) (zoom : Bool) (focus : Bool) : JVal :=
  .jobj [("apiVersion", .jstr "1.2"),
         ("method", .jstr "reset"),
         ("params", .jobj [("optics", .jarr [
            .jobj [("opticsId", .jstr optics_id.toPyStr),
                   ("zoom", .jbool zoom),
                   ("focus", .jbool focus)]])])]

/-- Request body built by `set_focus_window`. -/
def setFocusWindow_body (optics_id : OpticsId) (x y width height : ℚ) : JVal :=
  .jobj [("apiVersion", .jstr "1.2"),
         ("method", .jstr "setFocusWindow"),
         ("params", .jobj [("optics", .jarr [
            .jobj [("opticsId", .jstr optics_id.toPyStr),
                   ("focusWindowUpperLeftX", .jnum x),
                   ("focusWindowUpperLeftY", .jnum y),
                   ("focusWindowWidth", .jnum width),
                   ("focusWindowHeight", .jnum height)]])])]

/-- Request body built by `perform_autofocus`. -/
def performAutofocus_body (optics_id : OpticsId) : JVal :=
  .jobj [("apiVersion", .jstr "1.2"),
         ("method", .jstr "performAutofocus"),
         ("params", .jobj [("optics", .jarr [
            .jobj [("opticsId", .jstr optics_id.toPyStr)]])])]

/-- Request body built by `set_temperature_compensation`. -/
def setTemperatureCompensation_body (optics_id : OpticsId) (enabled : Bool) : JVal :=
  .jobj [("apiVersion", .jstr "1.2"),
         ("method", .jstr "setTemperatureCompensation"),
         ("params", .jobj [("optics", .jarr [
            .jobj [("opticsId", .jstr optics_id.toPyStr),
                   ("enable", .jbool enabled)]])])]

/-- Request body built by `set_ir_cut_filter_state`. -/
def setIrCutFilterState_body (optics_id : OpticsId) (state : String) : JVal :=
  .jobj [("apiVersion", .jstr "1.2"),
         ("method", .jstr "setIrCutFilterState"),
         ("params", .jobj [("optics", .jarr [
            .jobj [("opticsId", .jstr optics_id.toPyStr),
                   ("state", .jstr state)]])])]

/-- Request body built by `set_ir_compensation`. -/
def setIrCompensation_body (optics_id : OpticsId) (enabled : Bool) : JVal :=
  .jobj [("apiVersion", .jstr "1.2"),
         ("method", .jstr "setIrCompensation"),
         ("params", .jobj [("optics", .jarr [
            .jobj [("opticsId", .jstr optics_id.toPyStr),
                   ("enable", .jbool enabled)]])])]

/-- `calibrate`'s `zoom` parameter default (`zoom: bool = True`). -/
def calibrate_default_zoom : Bool := true

/-- `calibrate`'s `focus` parameter default (`focus: bool = True`). -/
def calibrate_default_focus : Bool := true

/-- `reset`'s `zoom` parameter default (`zoom: bool = False`). -/
def reset_default_zoom : Bool := false

/-- `reset`'s `focus` parameter default (`focus: bool = True`). -/
def reset_default_focus : Bool := true

/-- `get_optics`: posts the metadata request, returns the parsed body.
First component: the requests sent (the method makes exactly one call). -/
def get_optics {ε : Type} (send : Transport ε) : List SentRequest × Except ε JVal :=
  let req : SentRequest := ⟨"opticscontrol.cgi", "POST", getOptics_body⟩
  ([req], send req)

/-- `is_available`: calls `get_optics` inside `try`, returns `True` on
success and `False` on any exception. -/
def is_available {ε : Type} (send : Transport ε) : List SentRequest × Bool :=
  let r := get_optics send
  (r.1, match r.2 with
        | .ok _ => true
        | .error _ => false)

/-- `get_capabilities`: posts the capabilities request, returns the body. -/
def get_capabilities {ε : Type} (send : Transport ε) :
    List SentRequest × Except ε JVal :=
  let req : SentRequest := ⟨"opticscontrol.cgi", "POST", getCapabilities_body⟩
  ([req], send req)

/-- `set_focus(optics_id, position)`. -/
def set_focus {ε : Type} (send : Transport ε) (optics_id : OpticsId)
    (position : ℚ) : List SentRequest × Except ε Unit :=
  let req : SentRequest :=
    ⟨"opticscontrol.cgi", "POST", setFocus_body optics_id position⟩
  ([req], (send req).map fun _ => ())

/-- `set_relative_focus(optics_id, step)`. -/
def set_relative_focus {ε : Type} (send : Transport ε) (optics_id : OpticsId)
    (step : String) : List SentRequest × Except ε Unit :=
  let req : SentRequest :=
    ⟨"opticscontrol.cgi", "POST", setRelativeFocus_body optics_id step⟩
  ([req], (send req).map fun _ => ())

/-- `set_magnification(optics_id, magnification)`. -/
def set_magnification {ε : Type} (send : Transport ε) (optics_id : OpticsId)
    (magnification : ℚ) : List SentRequest × Except ε Unit :=
  let req : SentRequest :=
    ⟨"opticscontrol.cgi", "POST", setMagnification_body optics_id magnification⟩
  ([req], (send req).map fun _ => ())

/-- `set_relative_magnification(optics_id, step)`. -/
def set_relative_magnification {ε : Type} (send : Transport ε)
    (optics_id : OpticsId) (step : String) : List SentRequest × Except ε Unit :=
  let req : SentRequest :=
    ⟨"opticscontrol.cgi", "POST", setRelativeMagnification_body optics_id step⟩
  ([req], (send req).map fun _ => ())

/-- `calibrate(optics_id, zoom=True, focus=True)`; the Python defaults are
`calibrate_default_zoom` and `calibrate_default_focus`. -/
def calibrate {ε : Type} (send : Transport ε) (optics_id : OpticsId)
    (zoom : Bool) (focus : Bool) : List SentRequest × Except ε Unit :=
  let req : SentRequest :=
    ⟨"opticscontrol.cgi", "POST", calibrate_body optics_id zoom focus⟩
  ([req], (send req).map fun _ => ())

/-- `reset(optics_id, zoom=False, focus=True)`; the Python defaults are
`reset_default_zoom` and `reset_default_focus`. -/
def reset {ε : Type} (send : Transport ε) (optics_id : OpticsId)
    (zoom : Bool) (focus : Bool) : List SentRequest × Except ε Unit :=
  let req : SentRequest :=
    ⟨"opticscontrol.cgi", "POST", reset_body optics_id zoom focus⟩
  ([req], (send req).map fun _ => ())

/-- `set_focus_window(optics_id, x, y, width, height)`. -/
def set_focus_window {ε : Type} (send : Transport ε) (optics_id : OpticsId)
    (x y width height : ℚ) : List SentRequest × Except ε Unit :=
  let req : SentRequest :=
    ⟨"opticscontrol.cgi", "POST", setFocusWindow_body optics_id x y width height⟩
  ([req], (send req).map fun _ => ())

/-- `perform_autofocus(optics_id)`. -/
def perform_autofocus {ε : Type} (send : Transport ε) (optics_id : OpticsId) :
    List SentRequest × Except ε Unit :=
  let req : SentRequest :=
    ⟨"opticscontrol.cgi", "POST", performAutofocus_body optics_id⟩
  ([req], (send req).map fun _ => ())

/-- `set_temperature_compensation(optics_id, enabled)`. -/
def set_temperature_compensation {ε : Type} (send : Transport ε)
    (optics_id : OpticsId) (enabled : Bool) : List SentRequest × Except ε Unit :=
  let req : SentRequest :=
    ⟨"opticscontrol.cgi", "POST", setTemperatureCompensation_body optics_id enabled⟩
  ([req], (send req).map fun _ => ())

/-- `set_ir_cut_filter_state(optics_id, state)`. -/
def set_ir_cut_filter_state {ε : Type} (send : Transport ε)
    (optics_id : OpticsId) (state : String) : List SentRequest × Except ε Unit :=
  let req : SentRequest :=
    ⟨"opticscontrol.cgi", "POST", setIrCutFilterState_body optics_id state⟩
  ([req], (send req).map fun _ => ())

/-- `set_ir_compensation(optics_id, enabled)`. -/
def set_ir_compensation {ε : Type} (send : Transport ε) (optics_id : OpticsId)
    (enabled : Bool) : List SentRequest × Except ε Unit :=
  let req : SentRequest :=
    ⟨"opticscontrol.cgi", "POST", setIrCompensation_body optics_id enabled⟩
  ([req], (send req).map fun _ => ())

end OpticsControl

/-- The first (and in this client only) optics record of a request body:
`body["params"]["optics"][0]`. -/
def firstOptics (body : JVal) : Option JVal :=
  match body.lookup "params" with
  | some p =>
    match p.lookup "optics" with
    | some (.jarr l) => l.head?
    | _ => none
  | none => none

/-- Number of optics records in a request body, `none` when the body has
no `params.optics` array. -/
def opticsCount (body : JVal) : Option Nat :=
  match body.lookup "params" with
  | some p =>
    match p.lookup "optics" with
    | some (.jarr l) => some l.length
    | _ => none
  | none => none

/-- A request envelope carries `apiVersion: "1.2"` and the given method name. -/
def envMatches (m : String) (body : JVal) : Prop :=
  body.lookup "apiVersion" = some (.jstr "1.2") ∧
  body.lookup "method" = some (.jstr m)

/-- Modelled from the spec: the fixed table of fourteen
operation→method-name pairs that §8 of the design document refers to
(one row per operation of §4, wire method names as emitted). -/
def METHOD_TABLE : List (String × String) :=
  [("availability check", "getOptics"),
   ("get optics metadata", "getOptics"),
   ("get capabilities", "getCapabilities"),
   ("set absolute focus", "setFocus"),
   ("set relative focus", "setRelativeFocus"),
   ("set absolute magnification", "setMagnification"),
   ("set relative magnification", "setRelativeMagnification"),
   ("calibrate", "calibrate"),
   ("reset", "reset"),
   ("set focus window", "setFocusWindow"),
   ("perform autofocus", "performAutofocus"),
   ("set temperature compensation", "setTemperatureCompensation"),
   ("set IR-cut filter state", "setIrCutFilterState"),
   ("set IR compensation", "setIrCompensation")]

end VapixPython

namespace VapixPython

open OpticsControl

/-- Auxiliary: a property holding at `a` holds at every member of `[a]`. -/
theorem forall_mem_singleton_intro {α : Type} {p : α → Prop} {a : α}
    (h : p a) : ∀ x ∈ [a], p x := by
  intro x hx
  rw [List.mem_singleton] at hx
  subst hx
  exact h

/-- C1: every request envelope emitted by any of the fourteen operations of
the `OpticsControl` client carries `apiVersion: "1.2"` together with the
method name that the fixed fourteen-row operation→method-name table assigns
to that operation (the availability check emits its probe's `getOptics`
envelope). -/
theorem C1_every_envelope_matches_method_table {ε : Type} (send : Transport ε) :
    METHOD_TABLE.length = 14 ∧
    (List.lookup "availability check" METHOD_TABLE = some "getOptics" ∧
      ∀ r ∈ (is_available send).1, envMatches "getOptics" r.json_data) ∧
    (List.lookup "get optics metadata" METHOD_TABLE = some "getOptics" ∧
      ∀ r ∈ (get_optics send).1, envMatches "getOptics" r.json_data) ∧
    (List.lookup "get capabilities" METHOD_TABLE = some "getCapabilities" ∧
      ∀ r ∈ (get_capabilities send).1, envMatches "getCapabilities" r.json_data) ∧
    (List.lookup "set absolute focus" METHOD_TABLE = some "setFocus" ∧
      ∀ id pos, ∀ r ∈ (set_focus send id pos).1,
        envMatches "setFocus" r.json_data) ∧
    (List.lookup "set relative focus" METHOD_TABLE = some "setRelativeFocus" ∧
      ∀ id step, ∀ r ∈ (set_relative_focus send id step).1,
        envMatches "setRelativeFocus" r.json_data) ∧
    (List.lookup "set absolute magnification" METHOD_TABLE
        = some "setMagnification" ∧
      ∀ id m, ∀ r ∈ (set_magnification send id m).1,
        envMatches "setMagnification" r.json_data) ∧
    (List.lookup "set relative magnification" METHOD_TABLE
        = some "setRelativeMagnification" ∧
      ∀ id step, ∀ r ∈ (set_relative_magnification send id step).1,
        envMatches "setRelativeMagnification" r.json_data) ∧
    (List.lookup "calibrate" METHOD_TABLE = some "calibrate" ∧
      ∀ id zoom focus, ∀ r ∈ (calibrate send id zoom focus).1,
        envMatches "calibrate" r.json_data) ∧
    (List.lookup "reset" METHOD_TABLE = some "reset" ∧
      ∀ id zoom focus, ∀ r ∈ (reset send id zoom focus).1,
        envMatches "reset" r.json_data) ∧
    (List.lookup "set focus window" METHOD_TABLE = some "setFocusWindow" ∧
      ∀ id x y w h, ∀ r ∈ (set_focus_window send id x y w h).1,
        envMatches "setFocusWindow" r.json_data) ∧
    (List.lookup "perform autofocus" METHOD_TABLE = some "performAutofocus" ∧
      ∀ id, ∀ r ∈ (perform_autofocus send id).1,
        envMatches "performAutofocus" r.json_data) ∧
    (List.lookup "set temperature compensation" METHOD_TABLE
        = some "setTemperatureCompensation" ∧
      ∀ id en, ∀ r ∈ (set_temperature_compensation send id en).1,
        envMatches "setTemperatureCompensation" r.json_data) ∧
    (List.lookup "set IR-cut filter state" METHOD_TABLE
        = some "setIrCutFilterState" ∧
      ∀ id st, ∀ r ∈ (set_ir_cut_filter_state send id st).1,
        envMatches "setIrCutFilterState" r.json_data) ∧
    (List.lookup "set IR compensation" METHOD_TABLE
        = some "setIrCompensation" ∧
      ∀ id en, ∀ r ∈ (set_ir_compensation send id en).1,
        envMatches "setIrCompensation" r.json_data) := by
  refine ⟨rfl, ⟨rfl, ?_⟩, ⟨rfl, ?_⟩, ⟨rfl, ?_⟩, ⟨rfl, ?_⟩, ⟨rfl, ?_⟩,
    ⟨rfl, ?_⟩, ⟨rfl, ?_⟩, ⟨rfl, ?_⟩, ⟨rfl, ?_⟩, ⟨rfl, ?_⟩, ⟨rfl, ?_⟩,
    ⟨rfl, ?_⟩, ⟨rfl, ?_⟩, ⟨rfl, ?_⟩⟩
  · exact forall_mem_singleton_intro ⟨rfl, rfl⟩
  · exact forall_mem_singleton_intro ⟨rfl, rfl⟩
  · exact forall_mem_singleton_intro ⟨rfl, rfl⟩
  · exact fun id pos => forall_mem_singleton_intro ⟨rfl, rfl⟩
  · exact fun id step => forall_mem_singleton_intro ⟨rfl, rfl⟩
  · exact fun id m => forall_mem_singleton_intro ⟨rfl, rfl⟩
  · exact fun id step => forall_mem_singleton_intro ⟨rfl, rfl⟩
  · exact fun id zoom focus => forall_mem_singleton_intro ⟨rfl, rfl⟩
  · exact fun id zoom focus => forall_mem_singleton_intro ⟨rfl, rfl⟩
  · exact fun id x y w h => forall_mem_singleton_intro ⟨rfl, rfl⟩
  · exact fun id => forall_mem_singleton_intro ⟨rfl, rfl⟩
  · exact fun id en => forall_mem_singleton_intro ⟨rfl, rfl⟩
  · exact fun id st => forall_mem_singleton_intro ⟨rfl, rfl⟩
  · exact fun id en => forall_mem_singleton_intro ⟨rfl, rfl⟩

/-- Witness for C1 at a concrete transport: the probe envelope emitted by
the availability check carries `apiVersion "1.2"` and method `getOptics`. -/
theorem C1_witness : envMatches "getOptics" getOptics_body := by
  have h := C1_every_envelope_matches_method_table
    (fun _ : SentRequest => Except.error (0 : ℕ))
  exact h.2.2.1.2 ⟨"opticscontrol.cgi", "POST", getOptics_body⟩ (List.Mem.head _)

/-- C2: `is_available` never propagates a transport error: whenever the
probe `get_optics` call errors, it returns `false`, and it returns `true`
exactly when the probe succeeds. -/
theorem C2_is_available_error_shielding {ε : Type} (send : Transport ε) :
    (∀ e : ε, (get_optics send).2 = Except.error e →
      (is_available send).2 = false) ∧
    ((is_available send).2 = true ↔ ∃ v, (get_optics send).2 = Except.ok v) := by
  constructor
  · intro e he
    show (match (get_optics send).2 with
          | Except.ok _ => true
          | Except.error _ => false) = false
    rw [he]
  · show (match (get_optics send).2 with
          | Except.ok _ => true
          | Except.error _ => false) = true
        ↔ ∃ v, (get_optics send).2 = Except.ok v
    cases h : (get_optics send).2 <;> simp

/-- Witness for C2: with a transport that always raises, `is_available`
returns `false`; with one that always succeeds, it returns `true`. -/
theorem C2_witness :
    (is_available (fun _ : SentRequest => Except.error (7 : ℕ))).2 = false ∧
    (is_available (fun _ : SentRequest =>
      (Except.ok (JVal.jbool true) : Except ℕ JVal))).2 = true := by
  constructor
  · exact (C2_is_available_error_shielding
      (fun _ : SentRequest => Except.error (7 : ℕ))).1 7 rfl
  · exact (C2_is_available_error_shielding
      (fun _ : SentRequest =>
        (Except.ok (JVal.jbool true) : Except ℕ JVal))).2.mpr ⟨_, rfl⟩

/-- Auxiliary: discarding the payload of a call that raised leaves the
same error. -/
theorem map_unit_error {ε : Type} {x : Except ε JVal} {e : ε}
    (hx : x = Except.error e) : x.map (fun _ => ()) = Except.error e := by
  rw [hx]; rfl

/-- C3: when the transport raises, every operation other than the
availability check surfaces exactly the transport's error, unchanged. -/
theorem C3_transport_errors_propagate {ε : Type} (send : Transport ε) (e : ε)
    (h : ∀ r, send r = Except.error e) :
    ((get_optics send).2 = Except.error e) ∧
    ((get_capabilities send).2 = Except.error e) ∧
    (∀ id pos, (set_focus send id pos).2 = Except.error e) ∧
    (∀ id step, (set_relative_focus send id step).2 = Except.error e) ∧
    (∀ id m, (set_magnification send id m).2 = Except.error e) ∧
    (∀ id step, (set_relative_magnification send id step).2 = Except.error e) ∧
    (∀ id zoom focus, (calibrate send id zoom focus).2 = Except.error e) ∧
    (∀ id zoom focus, (reset send id zoom focus).2 = Except.error e) ∧
    (∀ id x y w hh, (set_focus_window send id x y w hh).2 = Except.error e) ∧
    (∀ id, (perform_autofocus send id).2 = Except.error e) ∧
    (∀ id en, (set_temperature_compensation send id en).2 = Except.error e) ∧
    (∀ id st, (set_ir_cut_filter_state send id st).2 = Except.error e) ∧
    (∀ id en, (set_ir_compensation send id en).2 = Except.error e) :=
  ⟨h _, h _,
   fun _ _ => map_unit_error (h _),
   fun _ _ => map_unit_error (h _),
   fun _ _ => map_unit_error (h _),
   fun _ _ => map_unit_error (h _),
   fun _ _ _ => map_unit_error (h _),
   fun _ _ _ => map_unit_error (h _),
   fun _ _ _ _ _ => map_unit_error (h _),
   fun _ => map_unit_error (h _),
   fun _ _ => map_unit_error (h _),
   fun _ _ => map_unit_error (h _),
   fun _ _ => map_unit_error (h _)⟩

/-- Witness for C3: with a transport that always raises error `7`,
`set_magnification` raises exactly error `7`. -/
theorem C3_witness :
    (set_magnification (fun _ : SentRequest => Except.error (7 : ℕ))
      (OpticsId.ofInt 1) 2).2 = Except.error 7 :=
  (C3_transport_errors_propagate
    (fun _ : SentRequest => Except.error (7 : ℕ)) 7
    (fun _ => rfl)).2.2.2.2.1 (OpticsId.ofInt 1) 2

/-- C4: `set_focus(id, pos)` issues exactly one request, whose body has
method `setFocus`, `params.optics[0].opticsId = str(id)` and
`params.optics[0].position = pos`. -/
theorem C4_set_focus_request_shape {ε : Type} (send : Transport ε)
    (id : OpticsId) (pos : ℚ) :
    (set_focus send id pos).1
      = [⟨"opticscontrol.cgi", "POST", setFocus_body id pos⟩] ∧
    (setFocus_body id pos).lookup "method" = some (.jstr "setFocus") ∧
    (firstOptics (setFocus_body id pos)).bind (fun r => r.lookup "opticsId")
      = some (.jstr id.toPyStr) ∧
    (firstOptics (setFocus_body id pos)).bind (fun r => r.lookup "position")
      = some (.jnum pos) :=
  ⟨rfl, rfl, rfl, rfl⟩

/-- C5: with the Python default flags, `calibrate(id)` sends
`zoom: true, focus: true` and `reset(id)` sends `zoom: false, focus: true`. -/
theorem C5_calibrate_reset_default_flags {ε : Type} (send : Transport ε)
    (id : OpticsId) :
    (calibrate send id calibrate_default_zoom calibrate_default_focus).1
      = [⟨"opticscontrol.cgi", "POST",
          calibrate_body id calibrate_default_zoom calibrate_default_focus⟩] ∧
    (firstOptics (calibrate_body id calibrate_default_zoom
        calibrate_default_focus)).bind (fun r => r.lookup "zoom")
      = some (.jbool true) ∧
    (firstOptics (calibrate_body id calibrate_default_zoom
        calibrate_default_focus)).bind (fun r => r.lookup "focus")
      = some (.jbool true) ∧
    (reset send id reset_default_zoom reset_default_focus).1
      = [⟨"opticscontrol.cgi", "POST",
          reset_body id reset_default_zoom reset_default_focus⟩] ∧
    (firstOptics (reset_body id reset_default_zoom
        reset_default_focus)).bind (fun r => r.lookup "zoom")
      = some (.jbool false) ∧
    (firstOptics (reset_body id reset_default_zoom
        reset_default_focus)).bind (fun r => r.lookup "focus")
      = some (.jbool true) :=
  ⟨rfl, rfl, rfl, rfl, rfl, rfl⟩

/-- C6: `RELATIVE_STEP` maps `BIG_IN`, `SMALL_IN`, `BIG_OUT` and `SMALL_OUT`
to `+bigStep`, `+smallStep`, `-bigStep` and `-smallStep` respectively, and
has no other entries. -/
theorem C6_RELATIVE_STEP_entries :
    List.lookup "BIG_IN" RELATIVE_STEP = some "+bigStep" ∧
    List.lookup "SMALL_IN" RELATIVE_STEP = some "+smallStep" ∧
    List.lookup "BIG_OUT" RELATIVE_STEP = some "-bigStep" ∧
    List.lookup "SMALL_OUT" RELATIVE_STEP = some "-smallStep" ∧
    RELATIVE_STEP.map Prod.fst
      = ["BIG_IN", "SMALL_IN", "BIG_OUT", "SMALL_OUT"] :=
  ⟨rfl, rfl, rfl, rfl, rfl⟩

/-- C7: `set_focus_window(id, 0.1, 0.2, 0.5, 0.6)` produces a body with
method `setFocusWindow` whose optics record carries the four window
fields with exactly those values. -/
theorem C7_set_focus_window_fields {ε : Type} (send : Transport ε)
    (id : OpticsId) :
    (set_focus_window send id 0.1 0.2 0.5 0.6).1
      = [⟨"opticscontrol.cgi", "POST",
          setFocusWindow_body id 0.1 0.2 0.5 0.6⟩] ∧
    (setFocusWindow_body id 0.1 0.2 0.5 0.6).lookup "method"
      = some (.jstr "setFocusWindow") ∧
    (firstOptics (setFocusWindow_body id 0.1 0.2 0.5 0.6)).bind
        (fun r => r.lookup "focusWindowUpperLeftX") = some (.jnum 0.1) ∧
    (firstOptics (setFocusWindow_body id 0.1 0.2 0.5 0.6)).bind
        (fun r => r.lookup "focusWindowUpperLeftY") = some (.jnum 0.2) ∧
    (firstOptics (setFocusWindow_body id 0.1 0.2 0.5 0.6)).bind
        (fun r => r.lookup "focusWindowWidth") = some (.jnum 0.5) ∧
    (firstOptics (setFocusWindow_body id 0.1 0.2 0.5 0.6)).bind
        (fun r => r.lookup "focusWindowHeight") = some (.jnum 0.6) :=
  ⟨rfl, rfl, rfl, rfl, rfl, rfl⟩

/-- C8: for an arbitrary step string (not only the four sanctioned tokens),
`set_relative_focus` and `set_relative_magnification` issue their single
request with the step forwarded verbatim in the record's `type` field. -/
theorem C8_relative_step_forwarded_verbatim {ε : Type} (send : Transport ε)
    (id : OpticsId) (step : String) :
    (set_relative_focus send id step).1
      = [⟨"opticscontrol.cgi", "POST", setRelativeFocus_body id step⟩] ∧
    (firstOptics (setRelativeFocus_body id step)).bind
        (fun r => r.lookup "type") = some (.jstr step) ∧
    (set_relative_magnification send id step).1
      = [⟨"opticscontrol.cgi", "POST", setRelativeMagnification_body id step⟩] ∧
    (firstOptics (setRelativeMagnification_body id step)).bind
        (fun r => r.lookup "type") = some (.jstr step) :=
  ⟨rfl, rfl, rfl, rfl⟩

/-- C9: every parameter-taking operation behaves identically on the integer
optics id `n` and on the string `str(n)`: the ids are coerced with `str()`
before being placed in the body, so the calls are indistinguishable. -/
theorem C9_int_str_optics_id_agree {ε : Type} (send : Transport ε) (n : Int) :
    (∀ pos, set_focus send (OpticsId.ofInt n) pos
      = set_focus send (OpticsId.ofStr (toString n)) pos) ∧
    (∀ step, set_relative_focus send (OpticsId.ofInt n) step
      = set_relative_focus send (OpticsId.ofStr (toString n)) step) ∧
    (∀ m, set_magnification send (OpticsId.ofInt n) m
      = set_magnification send (OpticsId.ofStr (toString n)) m) ∧
    (∀ step, set_relative_magnification send (OpticsId.ofInt n) step
      = set_relative_magnification send (OpticsId.ofStr (toString n)) step) ∧
    (∀ zoom focus, calibrate send (OpticsId.ofInt n) zoom focus
      = calibrate send (OpticsId.ofStr (toString n)) zoom focus) ∧
    (∀ zoom focus, reset send (OpticsId.ofInt n) zoom focus
      = reset send (OpticsId.ofStr (toString n)) zoom focus) ∧
    (∀ x y w hh, set_focus_window send (OpticsId.ofInt n) x y w hh
      = set_focus_window send (OpticsId.ofStr (toString n)) x y w hh) ∧
    (perform_autofocus send (OpticsId.ofInt n)
      = perform_autofocus send (OpticsId.ofStr (toString n))) ∧
    (∀ en, set_temperature_compensation send (OpticsId.ofInt n) en
      = set_temperature_compensation send (OpticsId.ofStr (toString n)) en) ∧
    (∀ st, set_ir_cut_filter_state send (OpticsId.ofInt n) st
      = set_ir_cut_filter_state send (OpticsId.ofStr (toString n)) st) ∧
    (∀ en, set_ir_compensation send (OpticsId.ofInt n) en
      = set_ir_compensation send (OpticsId.ofStr (toString n)) en) :=
  ⟨fun _ => rfl, fun _ => rfl, fun _ => rfl, fun _ => rfl,
   fun _ _ => rfl, fun _ _ => rfl, fun _ _ _ _ => rfl, rfl,
   fun _ => rfl, fun _ => rfl, fun _ => rfl⟩

/-- C10: the `get_optics` and `get_capabilities` envelopes have no `params`
key (their only keys are `apiVersion` and `method`), while every other
operation's envelope carries a `params.optics` list of exactly one record. -/
theorem C10_params_key_presence {ε : Type} (send : Transport ε) :
    getOptics_body.lookup "params" = none ∧
    JVal.keys getOptics_body = ["apiVersion", "method"] ∧
    getCapabilities_body.lookup "params" = none ∧
    JVal.keys getCapabilities_body = ["apiVersion", "method"] ∧
    ((get_optics send).1.map SentRequest.json_data = [getOptics_body]) ∧
    ((get_capabilities send).1.map SentRequest.json_data
      = [getCapabilities_body]) ∧
    (∀ id pos, opticsCount (setFocus_body id pos) = some 1) ∧
    (∀ id step, opticsCount (setRelativeFocus_body id step) = some 1) ∧
    (∀ id m, opticsCount (setMagnification_body id m) = some 1) ∧
    (∀ id step, opticsCount (setRelativeMagnification_body id step) = some 1) ∧
    (∀ id zoom focus, opticsCount (calibrate_body id zoom focus) = some 1) ∧
    (∀ id zoom focus, opticsCount (reset_body id zoom focus) = some 1) ∧
    (∀ id x y w hh,
      opticsCount (setFocusWindow_body id x y w hh) = some 1) ∧
    (∀ id, opticsCount (performAutofocus_body id) = some 1) ∧
    (∀ id en,
      opticsCount (setTemperatureCompensation_body id en) = some 1) ∧
    (∀ id st, opticsCount (setIrCutFilterState_body id st) = some 1) ∧
    (∀ id en, opticsCount (setIrCompensation_body id en) = some 1) :=
  ⟨rfl, rfl, rfl, rfl, rfl, rfl,
   fun _ _ => rfl, fun _ _ => rfl, fun _ _ => rfl, fun _ _ => rfl,
   fun _ _ _ => rfl, fun _ _ _ => rfl, fun _ _ _ _ _ => rfl, fun _ => rfl,
   fun _ _ => rfl, fun _ _ => rfl, fun _ _ => rfl⟩

end VapixPython
